import Mathlib

/-!
Verification development for the peer-review/course-management server
(`server.js` plus the SQLite schema `dbquery.sql`).

The embedding models, directly from the source:
  * SQLite expression semantics used by the report queries
    (`CAST(text AS REAL)`, `GLOB '*[0-9]*'`, `AVG` with NULL handling);
  * the relational rows of the schema;
  * `POST /api/assessments` (validator chain + transactional insert loop);
  * `POST /api/responses` (validator chain + single-row insert);
  * `GET /api/reports/student/:userId`;
  * `GET /api/reports/course/:courseId`;
  * `GET /api/reports/teacher/students` (join, filter, grouping,
    `toFixed(1)` formatting).

`ORDER BY` clauses are elided: they affect only presentation order and no
property below concerns ordering of the result list.
-/

namespace PeerReview

/-! ## SQLite expression semantics -/

/-- Numeric value of a list of ASCII digit characters. -/
def digitsToNat (ds : List Char) : ℕ :=
  ds.foldl (fun a c => 10 * a + (c.toNat - 48)) 0

/-- Split a leading run of ASCII digits from a character list. -/
def takeDigits (cs : List Char) : List Char × List Char :=
  (cs.takeWhile Char.isDigit, cs.dropWhile Char.isDigit)

/-- Sign parsing for SQLite's text-to-number conversion. -/
def parseSign : List Char → ℚ × List Char
  | '-' :: rest => (-1, rest)
  | '+' :: rest => (1, rest)
  | cs => (1, cs)

/-- Exponent part of SQLite's text-to-number conversion: an optional
`e`/`E`, optional sign, digits.  If no digit follows, the exponent
contributes nothing (the parser stops before the `e`). -/
def parseExponent : List Char → ℤ
  | 'e' :: rest => parseExponentBody rest
  | 'E' :: rest => parseExponentBody rest
  | _ => 0
where
  parseExponentBody (cs : List Char) : ℤ :=
    match cs with
    | '-' :: rest => -(digitsToNat (takeDigits rest).1 : ℤ)
    | '+' :: rest => (digitsToNat (takeDigits rest).1 : ℤ)
    | rest => (digitsToNat (takeDigits rest).1 : ℤ)

/-- `CAST(s AS REAL)` / `CAST(s AS FLOAT)` in SQLite: skip leading
whitespace, read an optional sign, an integer part, an optional fractional
part and an optional exponent, and return the value of that longest numeric
prefix; a string with no leading numeric prefix converts to `0.0`. -/
def castReal (s : String) : ℚ :=
  let cs := s.toList.dropWhile (fun c => c = ' ' ∨ c = '\t' ∨ c = '\n' ∨ c = '\r')
  let (sgn, cs) := parseSign cs
  let (ip, cs) := takeDigits cs
  let (fp, cs) :=
    match cs with
    | '.' :: rest => takeDigits rest
    | _ => ([], cs)
  if ip = [] ∧ fp = [] then 0
  else
    let mantissa : ℚ := (digitsToNat ip : ℚ) + (digitsToNat fp : ℚ) / (10 : ℚ) ^ fp.length
    let e : ℤ := parseExponent cs
    sgn * mantissa * (if 0 ≤ e then (10 : ℚ) ^ e.toNat else 1 / (10 : ℚ) ^ (-e).toNat)

/-- `s GLOB '*[0-9]*'`: the text contains at least one ASCII digit. -/
def globHasDigit (s : String) : Bool :=
  s.toList.any Char.isDigit

/-- SQL `AVG` over a column of nullable numeric values: NULLs are ignored;
the aggregate itself is NULL when no non-NULL value exists. -/
def sqlAvg (xs : List (Option ℚ)) : Option ℚ :=
  let vs := xs.filterMap id
  if vs = [] then none else some (vs.sum / (vs.length : ℚ))

/-! ## Relational rows (from `dbquery.sql`, with the extra
`visibility` column on assessments that `server.js` inserts and selects) -/

structure UserRow where
  user_id : String
  first_name : String
  last_name : String
  user_type : String
deriving DecidableEq

structure CourseRow where
  course_id : String
  course_name : String
  course_number : String
deriving DecidableEq

structure EnrollmentRow where
  course_id : String
  user_id : String
deriving DecidableEq

structure AssessmentRow where
  assessment_id : String
  course_id : String
  user_id : String
  name : String
  type : String
  status : String
  start_time : String
  end_time : String
  visibility : String
deriving DecidableEq

structure QuestionRow where
  assessment_question_id : String
  assessment_id : String
  question_type : String
  question_text : String
  options : String
deriving DecidableEq

structure ResponseRow where
  assessment_response_id : String
  assessment_id : String
  user_id : String
  target_user_id : Option String
  question_id : String
  response_text : String
  visibility : String
deriving DecidableEq

/-- The database state.  The connection never issues
`PRAGMA foreign_keys = ON`, so SQLite leaves foreign-key constraints
unenforced; only primary keys and the NOT NULL / CHECK constraints act. -/
structure DB where
  users : List UserRow
  courses : List CourseRow
  enrollments : List EnrollmentRow
  assessments : List AssessmentRow
  questions : List QuestionRow
  responses : List ResponseRow
deriving DecidableEq

/-! ## `POST /api/responses` (server.js lines 848–873)

The validator chain checks `assessmentId` non-empty, `questionId`
non-empty, `responseText` non-empty after trimming, and
`visibility ∈ \x7bpublic, private\x7d`.  On success the handler runs a single
`INSERT INTO tbl_assessment_responses` with a fresh UUID primary key; it
performs no lookup of the assessment, its status, the question, or any
existing response. -/

structure SubmitBody where
  assessmentId : String
  questionId : String
  responseText : String
  visibility : String
  targetUserId : Option String
deriving DecidableEq

/-- The express-validator chain on `POST /api/responses`; returns the list
of `param: message` strings produced by `validationResult`. -/
def validateSubmitBody (b : SubmitBody) : List String :=
  (if b.assessmentId = "" then ["assessmentId: Invalid value"] else []) ++
  (if b.questionId = "" then ["questionId: Invalid value"] else []) ++
  (if b.responseText.trim = "" then ["responseText: Invalid value"] else []) ++
  (if b.visibility = "public" ∨ b.visibility = "private" then []
   else ["visibility: Invalid value"])

/-- The row inserted by `POST /api/responses` for authenticated user
`authUserId` and generated UUID `newId`. -/
def submittedRow (authUserId newId : String) (b : SubmitBody) : ResponseRow :=
  { assessment_response_id := newId
    assessment_id := b.assessmentId
    user_id := authUserId
    target_user_id := b.targetUserId
    question_id := b.questionId
    response_text := b.responseText
    visibility := b.visibility }

/-- `POST /api/responses`: validate the body, then insert one row.  The
insert fails only on a primary-key collision of the generated UUID (the
`err` branch answering 500 `Error submitting response`); foreign keys are
not enforced and no domain checks exist. -/
def submitResponse (db : DB) (authUserId newId : String) (b : SubmitBody) :
    Except String DB :=
  if validateSubmitBody b ≠ [] then
    .error "Validation failed"
  else if db.responses.any (fun r => r.assessment_response_id = newId) then
    .error "Error submitting response"
  else
    .ok { db with responses := db.responses ++ [submittedRow authUserId newId b] }

/-! ## `GET /api/reports/student/:userId` (server.js lines 876–891)

`SELECT a.name, AVG(CAST(ar.response_text AS FLOAT)) as average FROM
tbl_assessment_responses ar JOIN tbl_assessments a ON ar.assessment_id =
a.assessment_id WHERE ar.user_id = ? AND ar.visibility = 'public' GROUP BY
a.assessment_id`.  Groups are formed per assessment that has at least one
matching (public, authored-by-`userId`) response; every response in a
group contributes `CAST(response_text AS FLOAT)` to the average — there is
no digit guard here, so non-numeric text contributes `0.0`. -/

structure StudentReportRow where
  name : String
  average : ℚ
deriving DecidableEq

def studentReport (db : DB) (userId : String) : List StudentReportRow :=
  db.assessments.filterMap (fun a =>
    let rs := db.responses.filter (fun r =>
      r.assessment_id = a.assessment_id ∧ r.user_id = userId ∧
      r.visibility = "public")
    if rs = [] then none
    else some ⟨a.name, (rs.map (fun r => castReal r.response_text)).sum / (rs.length : ℚ)⟩)

/-! ## `GET /api/reports/course/:courseId` (server.js lines 893–912)

Same shape, joined through users and assessments, filtered to the course
and to public responses, grouped by responding user. -/

structure CourseReportRow where
  first_name : String
  last_name : String
  average : ℚ
deriving DecidableEq

def courseReport (db : DB) (courseId : String) : List CourseReportRow :=
  db.users.filterMap (fun u =>
    let rs := db.responses.filter (fun r =>
      r.user_id = u.user_id ∧ r.visibility = "public" ∧
      db.assessments.any (fun a =>
        a.assessment_id = r.assessment_id ∧ a.course_id = courseId))
    if rs = [] then none
    else some ⟨u.first_name, u.last_name,
      (rs.map (fun r => castReal r.response_text)).sum / (rs.length : ℚ)⟩)

/-! ## `GET /api/reports/teacher/students` (server.js lines 915–967) -/

/-- One row of the teacher-report query before grouping: a user joined to
an enrollment/course/assessment chain, LEFT JOINed to a response (or
NULL-extended when the user has no response to that assessment). -/
structure TSRow where
  u : UserRow
  a : AssessmentRow
  ar : Option ResponseRow
deriving DecidableEq

/-- `FROM tbl_users u JOIN tbl_enrollments e ON u.user_id = e.user_id JOIN
tbl_courses c ON e.course_id = c.course_id JOIN tbl_assessments a ON
c.course_id = a.course_id LEFT JOIN tbl_assessment_responses ar ON
u.user_id = ar.user_id AND a.assessment_id = ar.assessment_id`. -/
def teacherJoinRows (db : DB) : List TSRow :=
  db.users.flatMap (fun u =>
    db.enrollments.flatMap (fun e =>
      db.courses.flatMap (fun c =>
        db.assessments.flatMap (fun a =>
          if e.user_id = u.user_id ∧ e.course_id = c.course_id ∧
             a.course_id = c.course_id then
            let ms := db.responses.filter (fun r =>
              r.user_id = u.user_id ∧ r.assessment_id = a.assessment_id)
            if ms = [] then [⟨u, a, none⟩] else ms.map (fun r => ⟨u, a, some r⟩)
          else []))))

/-- The `WHERE` clause, applied after the LEFT JOIN: `a.user_id = ? AND
u.user_type = 'student' AND (ar.visibility = 'public' OR
ar.assessment_response_id IS NULL)`. -/
def teacherFilteredRows (db : DB) (teacherId : String) : List TSRow :=
  (teacherJoinRows db).filter (fun row =>
    decide (row.a.user_id = teacherId) && decide (row.u.user_type = "student") &&
    (match row.ar with
     | none => true
     | some r => decide (r.visibility = "public")))

/-- `CASE WHEN ar.response_text GLOB '*[0-9]*' THEN
CAST(ar.response_text AS REAL) ELSE NULL END`, evaluated on a possibly
NULL-extended row (a NULL text makes the whole CASE NULL). -/
def caseNumericValue (row : TSRow) : Option ℚ :=
  match row.ar with
  | none => none
  | some r => if globHasDigit r.response_text then some (castReal r.response_text) else none

/-- A grouped row of the teacher-report query:
`GROUP BY u.user_id, u.first_name, u.last_name`, with
`AVG(CASE ... END) as average_score`. -/
structure TSQueryRow where
  user_id : String
  first_name : String
  last_name : String
  average_score : Option ℚ
deriving DecidableEq

/-- De-duplication keeping the first occurrence of each element, as SQL
grouping enumerates distinct keys. -/
def firstDedupAux {α : Type} [DecidableEq α] (seen : List α) : List α → List α
  | [] => []
  | x :: xs =>
      if x ∈ seen then firstDedupAux seen xs
      else x :: firstDedupAux (x :: seen) xs

def firstDedup {α : Type} [DecidableEq α] (l : List α) : List α :=
  firstDedupAux [] l

/-- The grouped result set of the teacher-report query. -/
def teacherStudentQuery (db : DB) (teacherId : String) : List TSQueryRow :=
  let rows := teacherFilteredRows db teacherId
  let keys := firstDedup (rows.map (fun row =>
    (row.u.user_id, row.u.first_name, row.u.last_name)))
  keys.map (fun k =>
    { user_id := k.1
      first_name := k.2.1
      last_name := k.2.2
      average_score := sqlAvg ((rows.filter (fun row =>
        (row.u.user_id, row.u.first_name, row.u.last_name) = k)).map caseNumericValue) })

/-- `Number.prototype.toFixed(1)`: round `10·q` to the nearest integer,
ties toward +∞ (ECMAScript picks the larger candidate), and print with one
digit after the decimal point. -/
def toFixed1 (q : ℚ) : String :=
  let n : ℤ := Rat.floor (q * 10 + 1 / 2)
  (if n < 0 then "-" else "") ++ toString (n.natAbs / 10) ++ "." ++ toString (n.natAbs % 10)

/-- The handler's result formatting: `student.average_score !== null ?
student.average_score.toFixed(1) + '%' : 'N/A'`. -/
def formatAverage : Option ℚ → String
  | some q => toFixed1 q ++ "%"
  | none => "N/A"

structure TeacherReportRec where
  studentId : String
  firstName : String
  lastName : String
  average : String
deriving DecidableEq

/-- `GET /api/reports/teacher/students`: the query's grouped rows mapped
through `formattedResults`. -/
def teacherStudentReport (db : DB) (teacherId : String) : List TeacherReportRec :=
  (teacherStudentQuery db teacherId).map (fun s =>
    { studentId := s.user_id
      firstName := s.first_name
      lastName := s.last_name
      average := formatAverage s.average_score })

/-! ## `POST /api/assessments` (server.js lines 719–810) -/

/-- A question object from the request body.  The handler tests
`!question.type || !question.text`, i.e. JavaScript falsiness; a missing or
empty string field is modelled as `""`. -/
structure QuestionSpec where
  type : String
  text : String
  options : Option (List String)
deriving DecidableEq

structure AssessBody where
  courseId : String
  name : String
  type : String
  startTime : String
  endTime : String
  visibility : String
  questions : List QuestionSpec
deriving DecidableEq

/-- Numeric value of two ASCII digit characters. -/
def twoDigits (c1 c2 : Char) : ℕ :=
  10 * (c1.toNat - 48) + (c2.toNat - 48)

/-- Models the validator library's `isISO8601()` check as used here:
a `YYYY-MM-DD` calendar date with month 01–12 and day 01–31, optionally
followed by a `THH:MM:SS` time (hour ≤ 23, minute and second ≤ 59) and an
optional trailing `Z`. -/
def isISO8601 (s : String) : Bool :=
  match s.toList with
  | y1 :: y2 :: y3 :: y4 :: '-' :: m1 :: m2 :: '-' :: d1 :: d2 :: rest =>
    ([y1, y2, y3, y4, m1, m2, d1, d2].all Char.isDigit) &&
    (decide (1 ≤ twoDigits m1 m2) && decide (twoDigits m1 m2 ≤ 12)) &&
    (decide (1 ≤ twoDigits d1 d2) && decide (twoDigits d1 d2 ≤ 31)) &&
    (match rest with
     | [] => true
     | 'T' :: h1 :: h2 :: ':' :: i1 :: i2 :: ':' :: s1 :: s2 :: tail =>
       ([h1, h2, i1, i2, s1, s2].all Char.isDigit) &&
       decide (twoDigits h1 h2 ≤ 23) &&
       decide (twoDigits i1 i2 ≤ 59) &&
       decide (twoDigits s1 s2 ≤ 59) &&
       (tail = [] ∨ tail = ['Z'])
     | _ => false)
  | _ => false

/-- The express-validator chain on `POST /api/assessments`: `courseId`
non-empty, `name` non-empty after trimming, `type ∈ \x7bquiz, survey,
review\x7d`, `startTime` and `endTime` ISO-8601, `visibility ∈ \x7bpublic,
private\x7d`, `questions` an array with at least one element.  Note: no
check compares `startTime` with `endTime`, and the question objects
themselves are not inspected here.  All failures are collected and joined
into one message. -/
def validateAssessBody (b : AssessBody) : List String :=
  (if b.courseId = "" then ["courseId: Invalid value"] else []) ++
  (if b.name.trim = "" then ["name: Invalid value"] else []) ++
  (if b.type = "quiz" ∨ b.type = "survey" ∨ b.type = "review" then []
   else ["type: Invalid value"]) ++
  (if isISO8601 b.startTime then [] else ["startTime: Invalid value"]) ++
  (if isISO8601 b.endTime then [] else ["endTime: Valid Due Date is required"]) ++
  (if b.visibility = "public" ∨ b.visibility = "private" then []
   else ["visibility: Visibility must be public or private"]) ++
  (if 1 ≤ b.questions.length then []
   else ["questions: At least one question is required"])

/-- `question.options ? JSON.stringify(question.options) : '[]'`. -/
def optionsJson : Option (List String) → String
  | none => "[]"
  | some l => "[" ++ String.intercalate "," (l.map (fun s => "\"" ++ s ++ "\"")) ++ "]"

/-- The row inserted for one question of the creation request. -/
def mkQuestionRow (qid aid : String) (q : QuestionSpec) : QuestionRow :=
  { assessment_question_id := qid
    assessment_id := aid
    question_type := q.type
    question_text := q.text
    options := optionsJson q.options }

/-- The question-insertion loop inside the transaction: each question with
a falsy `type` or `text` sets `questionInsertError` and is skipped (the
`forEach` continues); otherwise `stmt.run` inserts the row, flagging the
error instead if the generated primary key collides.  Returns the rows the
statement inserted and whether `questionInsertError` was set. -/
def questionLoop (existing : List QuestionRow) (aid : String) :
    List QuestionRow → Bool → List (String × QuestionSpec) → List QuestionRow × Bool
  | acc, err, [] => (acc, err)
  | acc, err, (qid, q) :: rest =>
      if q.type = "" ∨ q.text = "" then
        questionLoop existing aid acc true rest
      else if (existing ++ acc).any (fun r => r.assessment_question_id = qid) then
        questionLoop existing aid acc true rest
      else
        questionLoop existing aid (acc ++ [mkQuestionRow qid aid q]) err rest

/-- The assessment row inserted by `POST /api/assessments` (status is
always `'pending'`). -/
def newAssessmentRow (authUserId assessmentId : String) (b : AssessBody) :
    AssessmentRow :=
  { assessment_id := assessmentId
    course_id := b.courseId
    user_id := authUserId
    name := b.name
    type := b.type
    status := "pending"
    start_time := b.startTime
    end_time := b.endTime
    visibility := b.visibility }

/-- `POST /api/assessments`: validate, then run the transaction
`BEGIN; INSERT assessment; INSERT each question; COMMIT/ROLLBACK`.
`assessmentId` and `qids` stand for the freshly generated UUIDs (one per
question).  An error in the assessment insert or any question rolls the
whole transaction back, so an error result leaves the database exactly as
it was. -/
def createAssessment (db : DB) (authUserId assessmentId : String)
    (qids : List String) (b : AssessBody) : Except String DB :=
  if validateAssessBody b ≠ [] then
    .error ("Validation failed: " ++
      String.intercalate ", " (validateAssessBody b))
  else if db.assessments.any (fun a => a.assessment_id = assessmentId) then
    .error "Error creating assessment record"
  else if (questionLoop db.questions assessmentId [] false (qids.zip b.questions)).2 then
    .error "question insertion error"
  else
    .ok { db with
      assessments := db.assessments ++ [newAssessmentRow authUserId assessmentId b]
      questions := db.questions ++
        (questionLoop db.questions assessmentId [] false (qids.zip b.questions)).1 }

/-! ## The visibility contract from the specification -/

/-- A principal as supplied by the auth collaborator. -/
structure Principal where
  userId : String
  role : String
deriving DecidableEq

/-- Modelled from the spec: the `visibleTo(principal, responses)` contract
of §4.3 — the subset of responses that are public, or authored by the
principal, or targeting the principal, or (for a teacher) belonging to an
assessment the principal owns.  Stated here only to compare the
specification's visibility rule with what the report queries implement. -/
def specVisibleTo (p : Principal) (db : DB) : List ResponseRow :=
  db.responses.filter (fun r =>
    r.visibility = "public" ∨ r.user_id = p.userId ∨
    r.target_user_id = some p.userId ∨
    (p.role = "teacher" ∧ db.assessments.any (fun a =>
      a.assessment_id = r.assessment_id ∧ a.user_id = p.userId) = true))

/-- The set of stored responses the student-report query actually reads
for `userId`: its `WHERE` clause restricted to the responses table. -/
def studentReportIncluded (db : DB) (userId : String) : List ResponseRow :=
  db.responses.filter (fun r => r.user_id = userId ∧ r.visibility = "public")

/-- Exchange the two timestamp fields of a request body. -/
def swapTimes (b : AssessBody) : AssessBody :=
  { b with startTime := b.endTime, endTime := b.startTime }

/-! ## Concrete scenarios used by the individual properties -/

/-- Scenario for the non-numeric-response property: one student `s1`
enrolled in `c1`, one assessment `a1` owned by teacher `t1`, and three
public responses by `s1` with texts `"4"`, `"abc"`, `"5"`. -/
def dbC1 : DB :=
  { users := [⟨"s1", "Stu", "One", "student"⟩]
    courses := [⟨"c1", "Course", "101"⟩]
    enrollments := [⟨"c1", "s1"⟩]
    assessments := [⟨"a1", "c1", "t1", "Review 1", "review", "open",
      "2025-01-01", "2025-02-01", "public"⟩]
    questions := []
    responses :=
      [⟨"r1", "a1", "s1", none, "q1", "4", "public"⟩,
       ⟨"r2", "a1", "s1", none, "q2", "abc", "public"⟩,
       ⟨"r3", "a1", "s1", none, "q3", "5", "public"⟩] }

/-- Scenario for the Likert-rescaling property: two 1–5 Likert questions
on assessment `a1` of teacher `t1`, answered `"5"` and `"3"` by student
`s1`. -/
def dbC2 : DB :=
  { users := [⟨"s1", "Stu", "One", "student"⟩]
    courses := [⟨"c1", "Course", "101"⟩]
    enrollments := [⟨"c1", "s1"⟩]
    assessments := [⟨"a1", "c1", "t1", "Likert review", "review", "open",
      "2025-01-01", "2025-02-01", "public"⟩]
    questions :=
      [⟨"q1", "a1", "likert", "Quality?", "[\"1\",\"2\",\"3\",\"4\",\"5\"]"⟩,
       ⟨"q2", "a1", "likert", "Effort?", "[\"1\",\"2\",\"3\",\"4\",\"5\"]"⟩]
    responses :=
      [⟨"r1", "a1", "s1", none, "q1", "5", "public"⟩,
       ⟨"r2", "a1", "s1", none, "q2", "3", "public"⟩] }

/-- An empty database. -/
def dbEmpty : DB := ⟨[], [], [], [], [], []⟩

/-- A well-formed response body reused by the submission properties. -/
def bodyC3 : SubmitBody := ⟨"a1", "q1", "7", "public", some "s2"⟩

/-- A database already holding a response for the exact
`(questionId, authorId, targetId)` tuple of `bodyC3` by author `s1`. -/
def dbC3dup : DB :=
  { dbEmpty with responses := [⟨"r1", "a1", "s1", some "s2", "q1", "7", "public"⟩] }

/-- The state after submitting `bodyC3` twice as `s1` against the empty
database, with fresh ids `"r1"` and `"r2"`. -/
def afterTwoSubmits : Option DB :=
  (submitResponse dbEmpty "s1" "r1" bodyC3).toOption.bind
    (fun d => (submitResponse d "s1" "r2" bodyC3).toOption)

/-- Base state for the closed-assessment scenario. -/
def dbC4base : DB := { dbEmpty with users := [⟨"s1", "Stu", "One", "student"⟩] }

/-- An assessment whose status is `closed`. -/
def closedAssessmentRow : AssessmentRow :=
  ⟨"a1", "c1", "t1", "Closed review", "review", "closed",
    "2024-01-01", "2024-02-01", "public"⟩

/-- Scenario for the closed-assessment property: the only assessment is
`closed`. -/
def dbC4 : DB := { dbC4base with assessments := [closedAssessmentRow] }

/-- Scenario for the visibility property: a single private response
authored by `alice`. -/
def dbC5 : DB :=
  { dbEmpty with
    users := [⟨"alice", "Alice", "Author", "student"⟩]
    assessments := [⟨"a1", "c1", "t1", "Review", "review", "open",
      "2025-01-01", "2025-02-01", "public"⟩]
    responses := [⟨"r1", "a1", "alice", some "bob", "q1", "Great work", "private"⟩] }

/-- A request body whose question list contains one question with a falsy
(empty) `type`. -/
def badQuestionBody : AssessBody :=
  { courseId := "c1", name := "Quiz 1", type := "quiz"
    startTime := "2025-01-01T00:00:00Z", endTime := "2025-01-02T00:00:00Z"
    visibility := "public"
    questions := [⟨"likert", "Q1", some ["1", "2", "3", "4", "5"]⟩, ⟨"", "Q2", none⟩] }

/-- A request body passing every declared validator although its
`endTime` precedes its `startTime`. -/
def badOrderBody : AssessBody :=
  { courseId := "c1", name := "Quiz 1", type := "quiz"
    startTime := "2025-01-02T00:00:00Z", endTime := "2025-01-01T00:00:00Z"
    visibility := "public"
    questions := [⟨"likert", "Q1", some ["1", "2", "3", "4", "5"]⟩] }

/-- A request body violating the name, type and visibility checks at
once. -/
def multiBadBody : AssessBody :=
  { courseId := "c1", name := "   ", type := "exam"
    startTime := "2025-01-01T00:00:00Z", endTime := "2025-01-02T00:00:00Z"
    visibility := "secret"
    questions := [⟨"likert", "Q1", some ["1"]⟩] }

/-- Scenario for the no-numeric-data property: student `s1` has one public
response whose text `"abc"` contains no digit. -/
def dbC8 : DB :=
  { users := [⟨"s1", "Stu", "One", "student"⟩]
    courses := [⟨"c1", "Course", "101"⟩]
    enrollments := [⟨"c1", "s1"⟩]
    assessments := [⟨"a1", "c1", "t1", "Review", "review", "open",
      "2025-01-01", "2025-02-01", "public"⟩]
    questions := []
    responses := [⟨"r1", "a1", "s1", none, "q1", "abc", "public"⟩] }

/-- Scenario for the question/assessment invariant: the only question row
`q1` belongs to assessment `a2`, yet a response citing `q1` is submitted
against assessment `a1`. -/
def dbC9 : DB :=
  { dbEmpty with
    assessments :=
      [⟨"a1", "c1", "t1", "First", "review", "open", "2025-01-01", "2025-02-01", "public"⟩,
       ⟨"a2", "c1", "t1", "Second", "review", "open", "2025-01-01", "2025-02-01", "public"⟩]
    questions := [⟨"q1", "a2", "likert", "Q?", "[]"⟩] }

def bodyC9 : SubmitBody := ⟨"a1", "q1", "5", "public", none⟩

/-- Scenario for the teacher-report membership property: three students of
teacher `t1`'s course — `s1` with only a private response, `s2` with no
responses, `s3` with one public numeric response. -/
def dbC10 : DB :=
  { users := [⟨"s1", "Ann", "One", "student"⟩, ⟨"s2", "Bob", "Two", "student"⟩,
      ⟨"s3", "Cal", "Tri", "student"⟩]
    courses := [⟨"c1", "Course", "101"⟩]
    enrollments := [⟨"c1", "s1"⟩, ⟨"c1", "s2"⟩, ⟨"c1", "s3"⟩]
    assessments := [⟨"a1", "c1", "t1", "Review", "review", "open",
      "2025-01-01", "2025-02-01", "public"⟩]
    questions := []
    responses :=
      [⟨"r1", "a1", "s1", none, "q1", "4", "private"⟩,
       ⟨"r2", "a1", "s3", none, "q1", "4", "public"⟩] }

/-- The two-student restriction of `dbC10` (without `s3`), used to refute
the universal-membership reading. -/
def dbC10a : DB :=
  { dbC10 with
    users := [⟨"s1", "Ann", "One", "student"⟩, ⟨"s2", "Bob", "Two", "student"⟩]
    enrollments := [⟨"c1", "s1"⟩, ⟨"c1", "s2"⟩]
    responses := [⟨"r1", "a1", "s1", none, "q1", "4", "private"⟩] }

/-- The database with every private response discarded. -/
def publicOnly (db : DB) : DB :=
  { db with responses := db.responses.filter (fun r => r.visibility = "public") }

/-! ## Helper lemmas -/

theorem ite_nil_iff (c : Prop) [Decidable c] (m : String) :
    ((if c then ([] : List String) else [m]) = []) ↔ c := by
  by_cases h : c <;> simp [h]

theorem filter_of_filter_stronger {α : Type} (p q : α → Bool)
    (h : ∀ a, p a = true → q a = true) (l : List α) :
    (l.filter q).filter p = l.filter p := by
  induction l with
  | nil => rfl
  | cons x xs ih =>
    by_cases hq : q x = true
    · simp only [List.filter_cons, hq, if_true]
      by_cases hp : p x = true <;> simp [hp, ih]
    · have hp : p x = false := by
        cases hpx : p x with
        | false => rfl
        | true => exact absurd (h x hpx) hq
      simp [List.filter_cons, hq, hp, ih]

theorem mem_firstDedupAux {α : Type} [DecidableEq α] (x : α) :
    ∀ (l seen : List α), x ∈ firstDedupAux seen l ↔ x ∈ l ∧ x ∉ seen := by
  intro l
  induction l with
  | nil => intro seen; simp [firstDedupAux]
  | cons y ys ih =>
    intro seen
    by_cases hy : y ∈ seen
    · rw [show firstDedupAux seen (y :: ys) = firstDedupAux seen ys by
        simp [firstDedupAux, hy], ih]
      constructor
      · rintro ⟨h1, h2⟩
        exact ⟨List.mem_cons_of_mem _ h1, h2⟩
      · rintro ⟨h1, h2⟩
        rcases List.mem_cons.1 h1 with h1 | h1
        · exact absurd (h1.symm ▸ hy : x ∈ seen) h2
        · exact ⟨h1, h2⟩
    · rw [show firstDedupAux seen (y :: ys) = y :: firstDedupAux (y :: seen) ys by
        simp [firstDedupAux, hy]]
      constructor
      · intro hx
        rcases List.mem_cons.1 hx with h1 | h1
        · subst h1; exact ⟨List.mem_cons_self _ _, hy⟩
        · obtain ⟨h2, h3⟩ := (ih _).1 h1
          exact ⟨List.mem_cons_of_mem _ h2,
            fun hx2 => h3 (List.mem_cons_of_mem _ hx2)⟩
      · rintro ⟨h1, h2⟩
        rcases List.mem_cons.1 h1 with h1 | h1
        · subst h1; exact List.mem_cons_self _ _
        · by_cases hxy : x = y
          · subst hxy; exact List.mem_cons_self _ _
          · refine List.mem_cons_of_mem _ ((ih _).2 ⟨h1, ?_⟩)
            intro hx2
            rcases List.mem_cons.1 hx2 with h3 | h3
            · exact hxy h3
            · exact h2 h3

theorem mem_firstDedup {α : Type} [DecidableEq α] (x : α) (l : List α) :
    x ∈ firstDedup l ↔ x ∈ l := by
  simp [firstDedup, mem_firstDedupAux]

theorem sqlAvg_eq_none {xs : List (Option ℚ)} (h : ∀ x ∈ xs, x = none) :
    sqlAvg xs = none := by
  have : xs.filterMap id = [] := by
    rw [List.filterMap_eq_nil_iff]
    intro a ha
    simp [h a ha]
  simp [sqlAvg, this]

theorem questionLoop_error_sticky (existing : List QuestionRow) (aid : String) :
    ∀ (l : List (String × QuestionSpec)) (acc : List QuestionRow),
      (questionLoop existing aid acc true l).2 = true := by
  intro l
  induction l with
  | nil => intro acc; rfl
  | cons p rest ih =>
    intro acc
    obtain ⟨qid, q⟩ := p
    by_cases h1 : q.type = "" ∨ q.text = ""
    · simp only [questionLoop, if_pos h1]; exact ih acc
    · by_cases h2 : (existing ++ acc).any (fun r => r.assessment_question_id = qid) = true
      · simp only [questionLoop, if_neg h1, if_pos h2]; exact ih acc
      · simp only [questionLoop, if_neg h1, if_neg h2]; exact ih _

theorem questionLoop_ok (existing : List QuestionRow) (aid : String) :
    ∀ (l : List (String × QuestionSpec)) (acc : List QuestionRow),
      (questionLoop existing aid acc false l).2 = false →
      (questionLoop existing aid acc false l).1.length = acc.length + l.length ∧
      ∀ r ∈ (questionLoop existing aid acc false l).1,
        r ∈ acc ∨ r.assessment_id = aid := by
  intro l
  induction l with
  | nil =>
    intro acc _
    exact ⟨by simp [questionLoop], fun r hr => Or.inl hr⟩
  | cons p rest ih =>
    intro acc hok
    obtain ⟨qid, q⟩ := p
    by_cases h1 : q.type = "" ∨ q.text = ""
    · rw [show questionLoop existing aid acc false ((qid, q) :: rest) =
          questionLoop existing aid acc true rest by simp [questionLoop, h1]] at hok ⊢
      exact absurd hok (by simp [questionLoop_error_sticky])
    · by_cases h2 : (existing ++ acc).any (fun r => r.assessment_question_id = qid) = true
      · rw [show questionLoop existing aid acc false ((qid, q) :: rest) =
            questionLoop existing aid acc true rest by
              simp only [questionLoop, if_neg h1, if_pos h2]] at hok ⊢
        exact absurd hok (by simp [questionLoop_error_sticky])
      · rw [show questionLoop existing aid acc false ((qid, q) :: rest) =
            questionLoop existing aid (acc ++ [mkQuestionRow qid aid q]) false rest by
              simp only [questionLoop, if_neg h1, if_neg h2]] at hok ⊢
        obtain ⟨hlen, hmem⟩ := ih _ hok
        refine ⟨by simpa [Nat.add_assoc, Nat.add_comm 1 rest.length] using hlen, ?_⟩
        intro r hr
        rcases hmem r hr with h | h
        · rcases List.mem_append.1 h with h | h
          · exact Or.inl h
          · simp only [List.mem_singleton] at h
            subst h
            exact Or.inr rfl
        · exact Or.inr h

theorem questionLoop_invalid (existing : List QuestionRow) (aid : String) :
    ∀ (l : List (String × QuestionSpec)) (acc : List QuestionRow) (err : Bool)
      (qid : String) (q : QuestionSpec),
      (qid, q) ∈ l → (q.type = "" ∨ q.text = "") →
      (questionLoop existing aid acc err l).2 = true := by
  intro l
  induction l with
  | nil => intro acc err qid q h; exact absurd h (List.not_mem_nil _)
  | cons p rest ih =>
    intro acc err qid q hmem hbad
    obtain ⟨qid0, q0⟩ := p
    rcases List.mem_cons.1 hmem with h | h
    · rw [Prod.ext_iff] at h
      obtain ⟨h1, h2⟩ := h
      simp only at h1 h2
      subst h1; subst h2
      simp only [questionLoop, if_pos hbad]
      exact questionLoop_error_sticky existing aid rest acc
    · by_cases h1 : q0.type = "" ∨ q0.text = ""
      · simp only [questionLoop, if_pos h1]
        exact questionLoop_error_sticky existing aid rest acc
      · by_cases h2 : (existing ++ acc).any (fun r => r.assessment_question_id = qid0) = true
        · simp only [questionLoop, if_neg h1, if_pos h2]
          exact questionLoop_error_sticky existing aid rest acc
        · simp only [questionLoop, if_neg h1, if_neg h2]
          exact ih _ err qid q h hbad

theorem exists_mem_zip_right {α β : Type} :
    ∀ (xs : List α) (ys : List β), xs.length = ys.length →
      ∀ y ∈ ys, ∃ x, (x, y) ∈ xs.zip ys := by
  intro xs
  induction xs with
  | nil =>
    intro ys hlen y hy
    cases ys with
    | nil => exact absurd hy (List.not_mem_nil _)
    | cons z zs => simp at hlen
  | cons x xs ih =>
    intro ys hlen y hy
    cases ys with
    | nil => exact absurd hy (List.not_mem_nil _)
    | cons z zs =>
      rcases List.mem_cons.1 hy with h | h
      · subst h; exact ⟨x, List.mem_cons_self _ _⟩
      · obtain ⟨x', hx'⟩ := ih zs (by simpa using hlen) y h
        exact ⟨x', List.mem_cons_of_mem _ hx'⟩

/-! ## Claim C1 — non-numeric responses and the mean -/

/-- C1, counterexample: the claim asserts that every average computation
excludes a response with no parseable numeric substring, so that
`["4", "abc", "5"]` averages to 4.5.  The student report endpoint
(`GET /api/reports/student/:userId`) computes
`AVG(CAST(response_text AS FLOAT))`, under which `"abc"` casts to 0 and
contributes: on exactly those responses the reported average is 3, not
4.5. -/
theorem studentReport_includes_nonnumeric_as_zero :
    (studentReport dbC1 "s1").map (fun r => r.average) = [3] ∧ (3 : ℚ) ≠ 9 / 2 := by
  with_unfolding_all decide

/-- C1, amended: only the teacher student-report query
(`GET /api/reports/teacher/students`) excludes digit-free responses, via
its `CASE WHEN response_text GLOB '*[0-9]*'` guard — there
`["4", "abc", "5"]` averages to 4.5 while the digit-free `"abc"`
evaluates to NULL; the plain student report casts every public response,
so the same texts average to 3. -/
theorem nonnumeric_exclusion_teacher_only :
    (teacherStudentQuery dbC1 "t1").map (fun r => r.average_score) = [some (9 / 2)] ∧
    caseNumericValue ⟨⟨"s1", "Stu", "One", "student"⟩,
      ⟨"a1", "c1", "t1", "Review 1", "review", "open", "2025-01-01", "2025-02-01", "public"⟩,
      some ⟨"r2", "a1", "s1", none, "q2", "abc", "public"⟩⟩ = none ∧
    (studentReport dbC1 "s1").map (fun r => r.average) = [3] := by
  with_unfolding_all decide

/-! ## Claim C2 — rescaling to a 0–100 scale -/

/-- C2, counterexample: for the assessment with two 1–5 Likert questions
answered `"5"` and `"3"`, the claim demands a 0–100 rescaled average of
62.5; the teacher-report query averages the raw cast values and reports
4, never consulting the scale. -/
theorem no_likert_rescaling_cex :
    (teacherStudentQuery dbC2 "t1").map (fun r => r.average_score) = [some 4] ∧
    (4 : ℚ) ≠ 125 / 2 := by
  with_unfolding_all decide

/-- C2, amended: no report rescales to a 0–100 range.  The reported value
is the arithmetic mean of the raw `CAST` values — for `"5"` and `"3"` the
record shows `"4.0%"` — and the query result does not depend on the
question table at all, so the scale recorded in a question's options can
play no role. -/
theorem no_likert_rescaling_amended :
    teacherStudentReport dbC2 "t1" = [⟨"s1", "Stu", "One", "4.0%"⟩] ∧
    (∀ (db : DB) (tid : String) (qs : List QuestionRow),
      teacherStudentQuery { db with questions := qs } tid = teacherStudentQuery db tid) := by
  exact ⟨by with_unfolding_all rfl, fun _ _ _ => rfl⟩

/-! ## Claim C3 — duplicate response submissions -/

/-- C3, counterexample: submitting the same `(questionId, authorId,
targetId)` tuple twice against the empty database succeeds both times and
leaves two stored rows for that tuple — the second attempt is not
rejected and nothing resembling `DuplicateResponseError` exists. -/
theorem duplicate_submission_cex :
    afterTwoSubmits.map (fun d =>
      (d.responses.filter (fun r => r.question_id = "q1" ∧ r.user_id = "s1" ∧
        r.target_user_id = some "s2")).length) = some 2 := by
  with_unfolding_all rfl

/-- C3, amended: every well-formed submission with a fresh generated id
succeeds and appends one new row; the handler never consults existing
responses for the same `(questionId, authorId, targetId)` tuple, so
duplicates accumulate instead of being rejected. -/
theorem duplicate_submission_accepted (db : DB) (uid nid : String) (b : SubmitBody)
    (hv : validateSubmitBody b = [])
    (hfresh : db.responses.any (fun r => r.assessment_response_id = nid) = false) :
    submitResponse db uid nid b =
      .ok { db with responses := db.responses ++ [submittedRow uid nid b] } := by
  simp [submitResponse, hv, hfresh]

/-- C3, witness: the amended statement applied to a database already
holding a response for exactly the tuple of `bodyC3`. -/
theorem duplicate_submission_accepted_witness :
    submitResponse dbC3dup "s1" "r2" bodyC3 =
      .ok { dbC3dup with responses := dbC3dup.responses ++ [submittedRow "s1" "r2" bodyC3] } :=
  duplicate_submission_accepted dbC3dup "s1" "r2" bodyC3
    (by with_unfolding_all rfl) (by with_unfolding_all rfl)

/-! ## Claim C4 — submissions to closed assessments -/

/-- C4, counterexample: the only assessment of `dbC4` is `closed`, yet the
submission succeeds and the row is written — no `AssessmentClosedError`
exists anywhere in the handler. -/
theorem closed_submission_accepted_cex :
    dbC4.assessments.map (fun a => (a.assessment_id, a.status)) = [("a1", "closed")] ∧
    (submitResponse dbC4 "s1" "r1" bodyC3).toOption =
      some { dbC4 with responses := [submittedRow "s1" "r1" bodyC3] } := by
  with_unfolding_all decide

/-- C4, amended: response submission never reads the assessments table —
for any contents of that table (a closed assessment, or none at all) a
well-formed submission with a fresh id succeeds and the row is written. -/
theorem submission_ignores_assessment_status (db : DB) (as : List AssessmentRow)
    (uid nid : String) (b : SubmitBody)
    (hv : validateSubmitBody b = [])
    (hfresh : db.responses.any (fun r => r.assessment_response_id = nid) = false) :
    submitResponse { db with assessments := as } uid nid b = .ok { db with assessments := as, responses := db.responses ++ [submittedRow uid nid b] } := by
  simp [submitResponse, hv, hfresh]

/-- C4, witness: the amended statement applied with the closed assessment
in place. -/
theorem submission_ignores_assessment_status_witness :
    submitResponse { dbC4base with assessments := [closedAssessmentRow] } "s1" "r1" bodyC3 = .ok { dbC4base with assessments := [closedAssessmentRow], responses := dbC4base.responses ++ [submittedRow "s1" "r1" bodyC3] } :=
  submission_ignores_assessment_status dbC4base [closedAssessmentRow] "s1" "r1" bodyC3
    (by with_unfolding_all rfl) (by with_unfolding_all rfl)

/-! ## Claim C5 — visibility of private responses -/

/-- C5, counterexample: `alice` authored the one (private) response of
`dbC5`, so the claimed `visibleTo` contract — formalised as
`specVisibleTo` — includes it in her visible set; the report pipeline's
included set for `alice` is empty and her report shows no data at all. -/
theorem private_response_invisible_to_author_cex :
    dbC5.responses.map (fun r => (r.user_id, r.visibility)) = [("alice", "private")] ∧
    specVisibleTo ⟨"alice", "student"⟩ dbC5 = dbC5.responses ∧
    studentReportIncluded dbC5 "alice" = [] ∧
    studentReport dbC5 "alice" = [] := by
  with_unfolding_all decide

/-- C5, amended: the responses readable through the report endpoints are
exactly the public ones — the reports are insensitive to discarding every
private response, and every response the student report reads is public;
private responses are excluded even for their author, their target and
the owning teacher. -/
theorem reports_use_public_responses_only :
    (∀ (db : DB) (uid : String),
      studentReport (publicOnly db) uid = studentReport db uid) ∧
    (∀ (db : DB) (cid : String),
      courseReport (publicOnly db) cid = courseReport db cid) ∧
    (∀ (db : DB) (uid : String),
      (studentReportIncluded db uid).all (fun r => r.visibility == "public") = true) := by
  refine ⟨?_, ?_, ?_⟩
  · intro db uid
    unfold studentReport publicOnly
    refine List.filterMap_congr (fun a _ => ?_)
    rw [filter_of_filter_stronger]
    intro r hr
    simp only [decide_eq_true_eq] at hr ⊢
    exact hr.2.2
  · intro db cid
    unfold courseReport publicOnly
    refine List.filterMap_congr (fun u _ => ?_)
    rw [filter_of_filter_stronger]
    intro r hr
    simp only [decide_eq_true_eq] at hr ⊢
    exact hr.2.1
  · intro db uid
    rw [List.all_eq_true]
    intro r hr
    have h2 := (List.mem_filter.1 hr).2
    simp only [decide_eq_true_eq] at h2
    simp [h2.2]

/-! ## Claim C7 — assessment-creation validation -/

/-- C7, counterexample: `badOrderBody` has its `endTime` strictly before
its `startTime`, yet the validator chain reports no violation and the
creation request succeeds — `startTime < endTime` is never checked. -/
theorem start_end_order_not_validated_cex :
    validateAssessBody badOrderBody = [] ∧
    badOrderBody.endTime < badOrderBody.startTime ∧
    (createAssessment dbEmpty "t1" "a1" ["q1"] badOrderBody).isOk = true := by
  with_unfolding_all decide

/-- C7, amended: validation covers `courseId`/`name` non-empty, `type` and
`visibility` in their enumerated sets, both timestamps being ISO-8601, and
a non-empty question array; it is invariant under exchanging the two
timestamps (no ordering check) and under arbitrary rewriting of the
question objects (their text, type and options are not validated here);
all violated checks are enumerated together, as the threefold violation of
`multiBadBody` shows. -/
theorem validation_checks_amended :
    (∀ b : AssessBody, validateAssessBody (swapTimes b) = [] ↔ validateAssessBody b = []) ∧
    (∀ (b : AssessBody) (f : QuestionSpec → QuestionSpec),
      validateAssessBody { b with questions := b.questions.map f } = validateAssessBody b) ∧
    validateAssessBody multiBadBody =
      ["name: Invalid value", "type: Invalid value",
       "visibility: Visibility must be public or private"] := by
  refine ⟨?_, ?_, by with_unfolding_all decide⟩
  · intro b
    simp only [validateAssessBody, swapTimes, List.append_eq_nil, ite_nil_iff]
    tauto
  · intro b f
    simp [validateAssessBody]

/-! ## Claim C9 — the question-belongs-to-assessment invariant -/

/-- C9, counterexample: the one stored question `q1` belongs to assessment
`a2`, yet a response citing `q1` against assessment `a1` is accepted and
stored, violating the claimed invariant with no `QuestionMismatchError`
anywhere. -/
theorem question_mismatch_accepted_cex :
    dbC9.questions.map (fun q => (q.assessment_question_id, q.assessment_id)) =
      [("q1", "a2")] ∧
    (submitResponse dbC9 "s1" "r1" bodyC9).toOption.map
      (fun d => d.responses.map (fun r => (r.assessment_id, r.question_id))) =
      some [("a1", "q1")] := by
  with_unfolding_all decide

/-- C9, amended: response submission never reads the question table, so no
check ties a response's `questionId` to its `assessmentId`, and rows whose
question belongs to a different assessment are stored without error. -/
theorem submission_ignores_question_table (db : DB) (qs : List QuestionRow)
    (uid nid : String) (b : SubmitBody) :
    submitResponse { db with questions := qs } uid nid b =
      (submitResponse db uid nid b).map (fun d => { d with questions := qs }) := by
  by_cases hv : validateSubmitBody b ≠ []
  · simp [submitResponse, hv, Except.map]
  · by_cases hf : db.responses.any (fun r => r.assessment_response_id = nid) = true
    · simp [submitResponse, hv, hf, Except.map]
    · simp [submitResponse, hv, hf, Except.map]

/-! ## Claim C10 — teacher student-report membership and formatting -/

/-- C10, counterexample: in `dbC10a` both `s1` and `s2` are students
enrolled in the course `c1` holding teacher `t1`'s assessment, but `s1`
(whose only response row is private) is dropped entirely by the
`WHERE` clause applied after the LEFT JOIN — the report has no record for
`s1` at all, not even an `"N/A"` one. -/
theorem teacher_report_membership_cex :
    dbC10a.users.map (fun u => (u.user_id, u.user_type)) =
      [("s1", "student"), ("s2", "student")] ∧
    dbC10a.enrollments = [⟨"c1", "s1"⟩, ⟨"c1", "s2"⟩] ∧
    dbC10a.assessments.map (fun a => (a.user_id, a.course_id)) = [("t1", "c1")] ∧
    (teacherStudentReport dbC10a "t1").map (fun r => r.studentId) = ["s2"] := by
  with_unfolding_all decide

/-- C10, amended: a student appears in the result exactly when some joined
row for that student survives the `WHERE` filter — that is, the student
has a public response to one of the teacher's assessments, or some such
assessment has no response rows from the student at all; a student whose
every row is a private response is omitted.  Students with no surviving
response rows are reported as `"N/A"`, and numeric averages as one-decimal
percentage strings, as the `dbC10` scenario shows. -/
theorem teacher_report_membership_amended :
    (∀ (db : DB) (tid sid : String),
      (∃ rec ∈ teacherStudentQuery db tid, rec.user_id = sid) ↔
      (∃ row ∈ teacherFilteredRows db tid, row.u.user_id = sid)) ∧
    teacherStudentReport dbC10 "t1" =
      [⟨"s2", "Bob", "Two", "N/A"⟩, ⟨"s3", "Cal", "Tri", "4.0%"⟩] := by
  refine ⟨?_, by with_unfolding_all rfl⟩
  intro db tid sid
  simp only [teacherStudentQuery]
  constructor
  · rintro ⟨rec, hrec, hid⟩
    rw [List.mem_map] at hrec
    obtain ⟨k, hk, hfk⟩ := hrec
    rw [mem_firstDedup, List.mem_map] at hk
    obtain ⟨row, hrow, hkey⟩ := hk
    refine ⟨row, hrow, ?_⟩
    have h1 : rec.user_id = k.1 := by rw [← hfk]
    have h2 : row.u.user_id = k.1 := congrArg Prod.fst hkey
    rw [h2, ← h1, hid]
  · rintro ⟨row, hrow, hid⟩
    refine ⟨_, List.mem_map_of_mem _ ((mem_firstDedup _ _).2
      (List.mem_map_of_mem (fun r => (r.u.user_id, r.u.first_name, r.u.last_name)) hrow)), ?_⟩
    simpa using hid

/-! ## Claim C6 — all-or-nothing assessment creation -/

/-- C6: assessment creation is transactional.  When the handler answers
success, the new assessment row and exactly one question row per submitted
question were committed and nothing else changed; every failure path
(validation, insert error, any single invalid question) runs `ROLLBACK`,
modelled by the `.error` results that return no modified state.  In
particular, any invalid question in the list forces a rollback. -/
theorem createAssessment_all_or_nothing (db : DB) (uid aid : String)
    (qids : List String) (b : AssessBody)
    (hlen : qids.length = b.questions.length)
    (hfa : ∀ r ∈ db.questions, r.assessment_id ≠ aid) :
    (match createAssessment db uid aid qids b with
     | .ok db' =>
        db'.assessments = db.assessments ++ [newAssessmentRow uid aid b] ∧
        (db'.questions.filter (fun r => r.assessment_id = aid)).length =
          b.questions.length ∧
        db'.responses = db.responses
     | .error _ => True) ∧
    (b.questions.any (fun q => q.type == "" || q.text == "") = true →
      (createAssessment db uid aid qids b).isOk = false) := by
  constructor
  · by_cases hv : validateAssessBody b ≠ []
    · simp [createAssessment, hv]
    · by_cases hcol : db.assessments.any (fun a => a.assessment_id = aid) = true
      · simp [createAssessment, hv, hcol]
      · cases herr : (questionLoop db.questions aid [] false (qids.zip b.questions)).2 with
        | true => simp [createAssessment, hv, hcol, herr]
        | false =>
          obtain ⟨hlen2, hmem⟩ := questionLoop_ok db.questions aid
            (qids.zip b.questions) [] herr
          simp only [createAssessment, hv, hcol, herr, if_neg, if_false,
            ite_false, reduceIte, ne_eq, not_false_eq_true]
          refine ⟨rfl, ?_, rfl⟩
          rw [List.filter_append]
          have h1 : db.questions.filter (fun r => decide (r.assessment_id = aid)) = [] := by
            rw [List.filter_eq_nil_iff]
            intro r hr
            simpa using hfa r hr
          have h2 : ((questionLoop db.questions aid [] false (qids.zip b.questions)).1).filter
              (fun r => decide (r.assessment_id = aid)) =
              (questionLoop db.questions aid [] false (qids.zip b.questions)).1 := by
            rw [List.filter_eq_self]
            intro r hr
            rcases hmem r hr with h | h
            · exact absurd h (List.not_mem_nil r)
            · simpa using h
          rw [h1, h2, List.nil_append, hlen2, List.length_zip, hlen]
          simp
  · intro hany
    by_cases hv : validateAssessBody b ≠ []
    · simp [createAssessment, hv, Except.isOk, Except.toBool]
    · by_cases hcol : db.assessments.any (fun a => a.assessment_id = aid) = true
      · simp [createAssessment, hv, hcol, Except.isOk, Except.toBool]
      · rw [List.any_eq_true] at hany
        obtain ⟨q, hq, hbad⟩ := hany
        obtain ⟨qid, hqid⟩ := exists_mem_zip_right qids b.questions hlen q hq
        have hflag := questionLoop_invalid db.questions aid (qids.zip b.questions)
          [] false qid q hqid (by simpa using hbad)
        simp [createAssessment, hv, hcol, hflag, Except.isOk, Except.toBool]

/-- C6, witness: the all-or-nothing statement applied to the empty
database and the body whose second question has a falsy type — the
invalid question forces the failure outcome. -/
theorem createAssessment_all_or_nothing_witness :
    (match createAssessment dbEmpty "t1" "a9" ["q8", "q9"] badQuestionBody with
     | .ok db' =>
        db'.assessments = dbEmpty.assessments ++
          [newAssessmentRow "t1" "a9" badQuestionBody] ∧
        (db'.questions.filter (fun r => r.assessment_id = "a9")).length =
          badQuestionBody.questions.length ∧
        db'.responses = dbEmpty.responses
     | .error _ => True) ∧
    (badQuestionBody.questions.any (fun q => q.type == "" || q.text == "") = true →
      (createAssessment dbEmpty "t1" "a9" ["q8", "q9"] badQuestionBody).isOk = false) :=
  createAssessment_all_or_nothing dbEmpty "t1" "a9" ["q8", "q9"] badQuestionBody
    (by with_unfolding_all rfl) (by simp [dbEmpty])

/-! ## Claim C8 — no numeric data yields N/A, not a crash -/

/-- C8: in the teacher student report, a student none of whose surviving
rows carries a digit-bearing response text (no responses at all, or only
digit-free texts) gets `average_score = NULL` — `AVG` over an all-NULL
column — which the handler renders as the string `"N/A"`.  The model's
average is total: no NaN and no division by zero can arise. -/
theorem no_numeric_responses_reported_na (db : DB) (tid : String) (rec : TSQueryRow)
    (hmem : rec ∈ teacherStudentQuery db tid)
    (hnone : ∀ row ∈ teacherFilteredRows db tid,
      row.u.user_id = rec.user_id → caseNumericValue row = none) :
    rec.average_score = none ∧ formatAverage rec.average_score = "N/A" := by
  suffices h : rec.average_score = none by
    exact ⟨h, by rw [h]; rfl⟩
  simp only [teacherStudentQuery] at hmem
  rw [List.mem_map] at hmem
  obtain ⟨k, hk, hfk⟩ := hmem
  have huid : rec.user_id = k.1 := by rw [← hfk]
  have havg : rec.average_score = sqlAvg (((teacherFilteredRows db tid).filter
      (fun row => (row.u.user_id, row.u.first_name, row.u.last_name) = k)).map
        caseNumericValue) := by
    rw [← hfk]
  rw [havg]
  apply sqlAvg_eq_none
  intro x hx
  rw [List.mem_map] at hx
  obtain ⟨row, hrow, hval⟩ := hx
  have h1 := List.mem_filter.1 hrow
  have hkey : (row.u.user_id, row.u.first_name, row.u.last_name) = k := by
    simpa using h1.2
  have huid2 : row.u.user_id = rec.user_id := by
    rw [huid]
    exact congrArg Prod.fst hkey
  rw [← hval]
  exact hnone row h1.1 huid2

/-- C8, witness: in `dbC8` the only response of `s1` is the digit-free
`"abc"`, and the student's record reports `"N/A"`. -/
theorem no_numeric_responses_reported_na_witness :
    (⟨"s1", "Stu", "One", none⟩ : TSQueryRow).average_score = none ∧
    formatAverage (⟨"s1", "Stu", "One", none⟩ : TSQueryRow).average_score = "N/A" :=
  no_numeric_responses_reported_na dbC8 "t1" ⟨"s1", "Stu", "One", none⟩
    (by with_unfolding_all decide) (by with_unfolding_all decide)

end PeerReview
